import Mathlib

/-!
Verification of the 3D-Model Mass/Volume/Measurement tool (`src/app.py`).

The app delegates mesh loading to an external library (trimesh); we model a
loaded mesh as a record carrying the loader-provided quantities the app reads
(vertices, faces, bounding-box extents, surface area, volume, centroid,
per-vertex angular defects).  The app's own logic — the material catalog, the
unit conversions and mass table of `calculate_model_data`, the vertex-index
measurement of lines 143-146, and the figure assembly of
`plot_stl_with_arrows` — is embedded below over exact rationals (reals where
the code takes a square root).
-/

set_option autoImplicit false

namespace MassTool

/-- A 3D point / vector with exact rational coordinates (the code works on
float triples coming from `mesh.vertices`). -/
structure Vec3 where
  x : ℚ
  y : ℚ
  z : ℚ
  deriving DecidableEq, Repr

/-- The `MATERIALS` dict of `app.py` lines 10-16: name → density (g/cm³),
in Python dict insertion order. -/
def MATERIALS : List (String × ℚ) :=
  [("PLA", 1.250), ("PETG", 1.270), ("ABS", 1.020), ("Resin", 1.200),
   ("TPU (Rubber-like)", 1.200),
   ("Polyamide_SLS", 0.950), ("Polyamide_MJF", 1.010), ("Plexiglass", 1.180),
   ("Alumide", 1.360),
   ("Carbon Steel", 7.800), ("Steel", 7.860), ("Aluminum", 2.698),
   ("Titanium", 4.410),
   ("Brass", 8.600), ("Bronze", 9.000), ("Copper", 9.000), ("Silver", 10.260),
   ("Gold_14K", 13.600), ("Gold_18K", 15.600), ("3k CFRP", 1.790),
   ("Red Oak", 5.700)]

/-- A loaded mesh as the app sees it: the fields of the trimesh object that
`app.py` reads.  `extents`, `area`, `volume`, `centroid` and `vertexDefects`
are produced by the external loader; the app only consumes them. -/
structure Mesh where
  vertices : List Vec3
  faces : List (ℕ × ℕ × ℕ)
  extents : Vec3
  area : ℚ
  volume : ℚ
  centroid : Vec3
  vertexDefects : List ℚ
  deriving DecidableEq

/-- The `model_info` record built by `calculate_model_data` (value level;
string formatting is presentation only). -/
structure ModelInfo where
  fileSizeKB : ℚ
  triangles : ℕ
  boundsCm : Vec3
  surfaceAreaCm2 : ℚ
  volumeCm3 : ℚ
  deriving DecidableEq

/-- One row of the mass table: `[i, mat, density, mass_infill, mass_100]`
(`app.py` line 41). -/
structure MassRow where
  id : ℕ
  material : String
  density : ℚ
  massInfill : ℚ
  mass100 : ℚ
  deriving DecidableEq, Repr

/-- The loop of `app.py` lines 37-41: one row per catalog entry, enumerated
from `start` (the code calls `enumerate(MATERIALS.items(), start=1)`). -/
def massRowsFrom : List (String × ℚ) → ℚ → ℚ → ℕ → List MassRow
  | [], _, _, _ => []
  | (mat, density) :: rest, vol, infill, i =>
      ⟨i, mat, density, vol * density * infill, vol * density⟩ ::
        massRowsFrom rest vol infill (i + 1)

/-- `calculate_model_data` (`app.py` lines 21-47), after the external loader
has produced the mesh: unit conversions (÷10, ÷100, ÷1000), the info record,
and the mass table.  The function performs no validation of `infill` and has
no error path of its own. -/
def calculate_model_data (fileSizeBytes : ℚ) (mesh : Mesh) (infill : ℚ) :
    ModelInfo × List MassRow :=
  (⟨fileSizeBytes / 1024, mesh.faces.length,
     ⟨mesh.extents.x / 10, mesh.extents.y / 10, mesh.extents.z / 10⟩,
     mesh.area / 100, mesh.volume / 1000⟩,
   massRowsFrom MATERIALS (mesh.volume / 1000) infill 1)

/-- NumPy integer indexing on axis 0, as used by `mesh.vertices[idx]`
(`app.py` line 146): indices in `[0, n)` are taken directly, indices in
`[-n, 0)` wrap to `n + idx`, anything else raises `IndexError` (modelled as
`none`). -/
def npGet (xs : List Vec3) (idx : ℤ) : Option Vec3 :=
  if 0 ≤ idx ∧ idx < (xs.length : ℤ) then
    xs.get? idx.toNat
  else if -(xs.length : ℤ) ≤ idx ∧ idx < 0 then
    xs.get? (idx + (xs.length : ℤ)).toNat
  else
    none

/-- The measurement entry built at `app.py` line 146:
`[mesh.vertices[point1_idx], mesh.vertices[point2_idx]]`.  `none` models the
`IndexError` raised when either index is out of NumPy range. -/
def measureLine (mesh : Mesh) (i j : ℤ) : Option (Vec3 × Vec3) :=
  match npGet mesh.vertices i, npGet mesh.vertices j with
  | some p, some q => some (p, q)
  | _, _ => none

/-- Squared Euclidean distance of two points, in mm² (the radicand of
`np.linalg.norm(p1-p2)`). -/
def distSqMm (p q : Vec3) : ℚ :=
  (p.x - q.x) ^ 2 + (p.y - q.y) ^ 2 + (p.z - q.z) ^ 2

/-- The displayed distance `np.linalg.norm(p1-p2)/10` (`app.py` lines 85,87):
Euclidean norm in mm divided by 10 to give cm. -/
noncomputable def distanceCm (p q : Vec3) : ℝ :=
  Real.sqrt (distSqMm p q) / 10

/-- Distance of the measurement selected by two vertex indices; `none` models
the `IndexError` of out-of-range indexing. -/
noncomputable def measureDistance (mesh : Mesh) (i j : ℤ) : Option ℝ :=
  (measureLine mesh i j).map (fun pq => distanceCm pq.1 pq.2)

/-- One red measurement trace added per line (`app.py` lines 76-88):
the two endpoints and the labelled distance in cm. -/
structure MeasureSeg where
  pA : Vec3
  pB : Vec3
  labelCm : ℝ

/-- The figure assembled by `plot_stl_with_arrows`: the Mesh3d trace data
(coordinate and face-index arrays plus the per-vertex intensity field), the
measurement traces, and the corner text with material name and mass value. -/
structure Scene where
  xs : List ℚ
  ys : List ℚ
  zs : List ℚ
  fi : List ℕ
  fj : List ℕ
  fk : List ℕ
  colors : List ℝ
  segs : List MeasureSeg
  annot : String × ℚ

/-- `plot_stl_with_arrows` (`app.py` lines 52-106).  The color field follows
the if/elif/else of lines 58-64: `"z"` takes the vertical coordinate,
`"curvature"` the loader-supplied vertex defects, and any other string the
distance `((x-cx)² + (y-cy)² + (z-cz)²) ** 0.5` to the centroid.  The
function performs no validation of the mesh and has no error path. -/
noncomputable def plot_stl_with_arrows (mesh : Mesh) (material_name : String)
    (mass_value : ℚ) (color_by : String)
    (measure_lines : List (Vec3 × Vec3)) : Scene :=
  let colors : List ℝ :=
    if color_by = "z" then
      mesh.vertices.map (fun p => (p.z : ℝ))
    else if color_by = "curvature" then
      mesh.vertexDefects.map (fun d => (d : ℝ))
    else
      mesh.vertices.map (fun p =>
        Real.sqrt (((p.x - mesh.centroid.x) ^ 2 + (p.y - mesh.centroid.y) ^ 2 +
          (p.z - mesh.centroid.z) ^ 2 : ℚ)))
  { xs := mesh.vertices.map Vec3.x
    ys := mesh.vertices.map Vec3.y
    zs := mesh.vertices.map Vec3.z
    fi := mesh.faces.map (fun f => f.1)
    fj := mesh.faces.map (fun f => f.2.1)
    fk := mesh.faces.map (fun f => f.2.2)
    colors := colors
    segs := measure_lines.map (fun pq => ⟨pq.1, pq.2, distanceCm pq.1 pq.2⟩)
    annot := (material_name, mass_value) }

/-- The mass shown in the figure text (`app.py` lines 169-172): the
`"Mass @100% (g)"` column of the first table row whose material matches the
selection. -/
def mass_value (df : List MassRow) (selected : String) : Option ℚ :=
  (df.find? (fun r => r.material = selected)).map MassRow.mass100

/-- The Euclidean distance of a vertex to a fixed point, stated over ℝ — the
spec's words for the `centroidDistance` coloring mode. -/
noncomputable def euclidDist (p c : Vec3) : ℝ :=
  Real.sqrt (((p.x : ℝ) - c.x) ^ 2 + ((p.y : ℝ) - c.y) ^ 2 +
    ((p.z : ℝ) - c.z) ^ 2)

/-- A small concrete mesh (two vertices 10 mm apart, one face, volume
1000 mm³) used to instantiate the theorems below. -/
def wMesh : Mesh :=
  ⟨[⟨0, 0, 0⟩, ⟨10, 0, 0⟩], [(0, 1, 0)], ⟨10, 0, 0⟩, 200, 1000, ⟨5, 0, 0⟩,
   [0, 0]⟩

/-- A degenerate mesh with no vertices and no faces. -/
def emptyMesh : Mesh := ⟨[], [], ⟨0, 0, 0⟩, 0, 0, ⟨0, 0, 0⟩, []⟩

/-! ### Helper lemmas about the mass table -/

lemma massRowsFrom_length (mats : List (String × ℚ)) (vol infill : ℚ)
    (s : ℕ) : (massRowsFrom mats vol infill s).length = mats.length := by
  induction mats generalizing s with
  | nil => rfl
  | cons hd tl ih => cases hd; simp [massRowsFrom, ih]

lemma massRowsFrom_mem (mats : List (String × ℚ)) (vol infill : ℚ) (s : ℕ)
    (r : MassRow) (hr : r ∈ massRowsFrom mats vol infill s) :
    r.mass100 = vol * r.density ∧ r.massInfill = r.mass100 * infill := by
  induction mats generalizing s with
  | nil => simp [massRowsFrom] at hr
  | cons hd tl ih =>
    cases hd with
    | mk mat d =>
      rcases List.mem_cons.mp hr with h | h
      · subst h; exact ⟨rfl, rfl⟩
      · exact ih (s + 1) h

lemma massRowsFrom_get (mats : List (String × ℚ)) (vol infill : ℚ) (s : ℕ)
    (k : ℕ) (hk : k < (massRowsFrom mats vol infill s).length)
    (hk' : k < mats.length) :
    (massRowsFrom mats vol infill s).get ⟨k, hk⟩ =
      ⟨s + k, (mats.get ⟨k, hk'⟩).1, (mats.get ⟨k, hk'⟩).2,
       vol * (mats.get ⟨k, hk'⟩).2 * infill,
       vol * (mats.get ⟨k, hk'⟩).2⟩ := by
  induction mats generalizing s k with
  | nil => exact absurd hk' (Nat.not_lt_zero k)
  | cons hd tl ih =>
    cases hd with
    | mk mat d =>
      cases k with
      | zero => rfl
      | succ k =>
        have h1 : k < (massRowsFrom tl vol infill (s + 1)).length := by
          simpa [massRowsFrom] using hk
        have h2 : k < tl.length := Nat.lt_of_succ_lt_succ hk'
        have := ih (s + 1) k h1 h2
        rw [show s + (k + 1) = s + 1 + k from by omega]
        exact this

lemma massRowsFrom_find (mats : List (String × ℚ)) (vol infill : ℚ) (s : ℕ)
    (sel : String) :
    ((massRowsFrom mats vol infill s).find?
        (fun r => r.material = sel)).map MassRow.mass100 =
      (mats.find? (fun md => md.1 = sel)).map (fun md => vol * md.2) := by
  induction mats generalizing s with
  | nil => rfl
  | cons hd tl ih =>
    cases hd with
    | mk mat d =>
      simp only [massRowsFrom]
      by_cases h : mat = sel
      · rw [List.find?_cons_of_pos, List.find?_cons_of_pos] <;> simp [h]
      · rw [List.find?_cons_of_neg, List.find?_cons_of_neg]
        · exact ih (s + 1)
        · simp [h]
        · simp [h]

lemma find_key_of_mem (l : List (String × ℚ)) (sel : String) (d : ℚ)
    (hnd : (l.map Prod.fst).Nodup) (hmem : (sel, d) ∈ l) :
    l.find? (fun md => md.1 = sel) = some (sel, d) := by
  induction l with
  | nil => simp at hmem
  | cons hd tl ih =>
    cases hd with
    | mk mat d0 =>
      rcases List.mem_cons.mp hmem with h | h
      · rw [Prod.mk.injEq] at h
        simp [List.find?, h.1, h.2]
      · have hne : mat ≠ sel := by
          intro he
          subst he
          have : mat ∈ tl.map Prod.fst :=
            List.mem_map.mpr ⟨(mat, d), h, rfl⟩
          exact (List.nodup_cons.mp hnd).1 this
        have hnd' : (tl.map Prod.fst).Nodup := (List.nodup_cons.mp hnd).2
        simp [List.find?, hne, ih hnd' h]

lemma MATERIALS_keys_nodup : (MATERIALS.map Prod.fst).Nodup := by decide

/-! ### Claims C1-C4: the metrics calculator -/

/-- C1: for every catalog material with density d, every mesh volume
v (cm³) ≥ 0 and every infill fraction f ∈ [0,1], each mass table row has
massAtFull = v × d and massAtInfill = massAtFull × f. -/
theorem C1_mass_table_formula (fileSizeBytes : ℚ) (mesh : Mesh) (f : ℚ)
    (hv : 0 ≤ mesh.volume / 1000) (hf0 : 0 ≤ f) (hf1 : f ≤ 1) :
    ∀ r ∈ (calculate_model_data fileSizeBytes mesh f).2,
      r.mass100 = mesh.volume / 1000 * r.density ∧
        r.massInfill = r.mass100 * f := by
  intro r hr
  exact massRowsFrom_mem MATERIALS (mesh.volume / 1000) f 1 r hr

/-- Witness for C1 at the concrete mesh `wMesh`, infill 1, on the first
table row (PLA). -/
theorem C1_mass_table_formula_witness :
    (0 : ℚ) ≤ wMesh.volume / 1000 ∧ (0 : ℚ) ≤ 1 ∧ (1 : ℚ) ≤ 1 ∧
    ((⟨1, "PLA", 1.250, wMesh.volume / 1000 * 1.250 * 1,
        wMesh.volume / 1000 * 1.250⟩ : MassRow) ∈
      (calculate_model_data 0 wMesh 1).2) ∧
    ((⟨1, "PLA", 1.250, wMesh.volume / 1000 * 1.250 * 1,
        wMesh.volume / 1000 * 1.250⟩ : MassRow).mass100 =
      wMesh.volume / 1000 *
        (⟨1, "PLA", 1.250, wMesh.volume / 1000 * 1.250 * 1,
          wMesh.volume / 1000 * 1.250⟩ : MassRow).density ∧
      (⟨1, "PLA", 1.250, wMesh.volume / 1000 * 1.250 * 1,
        wMesh.volume / 1000 * 1.250⟩ : MassRow).massInfill =
        (⟨1, "PLA", 1.250, wMesh.volume / 1000 * 1.250 * 1,
          wMesh.volume / 1000 * 1.250⟩ : MassRow).mass100 * 1) := by
  have hv : (0 : ℚ) ≤ wMesh.volume / 1000 := by simp [wMesh]
  have hmem : (⟨1, "PLA", 1.250, wMesh.volume / 1000 * 1.250 * 1,
      wMesh.volume / 1000 * 1.250⟩ : MassRow) ∈
      (calculate_model_data 0 wMesh 1).2 := by
    simp [calculate_model_data, massRowsFrom, MATERIALS]
  exact ⟨hv, zero_le_one, le_refl 1, hmem,
    C1_mass_table_formula 0 wMesh 1 hv zero_le_one (le_refl 1) _ hmem⟩

/-- C2 counterexample: the mass table of the metrics calculator does not
have 20 rows — the catalog has 21 entries, so the table has 21 rows. -/
theorem C2_counterexample_21_rows :
    ((calculate_model_data 0 wMesh 1).2).length ≠ 20 := by decide

/-- C2 (amended): the mass table has exactly one row per catalog entry —
21 rows, not 20 — in the catalog's declared order, with 1-based display
ids and the catalog's name and density copied into each row. -/
theorem C2_amended_one_row_per_material (fileSizeBytes : ℚ) (mesh : Mesh)
    (f : ℚ) :
    ((calculate_model_data fileSizeBytes mesh f).2).length =
      MATERIALS.length ∧
    MATERIALS.length = 21 ∧
    ∀ k (hk : k < ((calculate_model_data fileSizeBytes mesh f).2).length)
      (hk' : k < MATERIALS.length),
      ((calculate_model_data fileSizeBytes mesh f).2).get ⟨k, hk⟩ =
        ⟨k + 1, (MATERIALS.get ⟨k, hk'⟩).1, (MATERIALS.get ⟨k, hk'⟩).2,
         mesh.volume / 1000 * (MATERIALS.get ⟨k, hk'⟩).2 * f,
         mesh.volume / 1000 * (MATERIALS.get ⟨k, hk'⟩).2⟩ := by
  refine ⟨massRowsFrom_length MATERIALS (mesh.volume / 1000) f 1, by decide,
    ?_⟩
  intro k hk hk'
  rw [show k + 1 = 1 + k from by omega]
  exact massRowsFrom_get MATERIALS (mesh.volume / 1000) f 1 k hk hk'

/-- Witness for C2 (amended) at the concrete mesh `wMesh`, row 0. -/
theorem C2_amended_one_row_per_material_witness :
    ((calculate_model_data 0 wMesh 1).2).length = MATERIALS.length ∧
    MATERIALS.length = 21 ∧
    ((calculate_model_data 0 wMesh 1).2).get ⟨0, by decide⟩ =
      ⟨1, (MATERIALS.get ⟨0, by decide⟩).1, (MATERIALS.get ⟨0, by decide⟩).2,
       wMesh.volume / 1000 * (MATERIALS.get ⟨0, by decide⟩).2 * 1,
       wMesh.volume / 1000 * (MATERIALS.get ⟨0, by decide⟩).2⟩ := by
  refine ⟨(C2_amended_one_row_per_material 0 wMesh 1).1,
    (C2_amended_one_row_per_material 0 wMesh 1).2.1, ?_⟩
  have h := (C2_amended_one_row_per_material 0 wMesh 1).2.2 0 (by decide)
    (by decide)
  simpa using h

/-- C3: the metrics calculator converts the loader's millimeter outputs by
the fixed divisors 10 (extents), 100 (area), 1000 (volume); the conversions
are exactly invertible by the matching multiplications. -/
theorem C3_unit_conversions (fileSizeBytes : ℚ) (mesh : Mesh) (f : ℚ) :
    ((calculate_model_data fileSizeBytes mesh f).1.boundsCm =
        ⟨mesh.extents.x / 10, mesh.extents.y / 10, mesh.extents.z / 10⟩ ∧
      (calculate_model_data fileSizeBytes mesh f).1.surfaceAreaCm2 =
        mesh.area / 100 ∧
      (calculate_model_data fileSizeBytes mesh f).1.volumeCm3 =
        mesh.volume / 1000) ∧
    ((calculate_model_data fileSizeBytes mesh f).1.boundsCm.x * 10 =
        mesh.extents.x ∧
      (calculate_model_data fileSizeBytes mesh f).1.boundsCm.y * 10 =
        mesh.extents.y ∧
      (calculate_model_data fileSizeBytes mesh f).1.boundsCm.z * 10 =
        mesh.extents.z ∧
      (calculate_model_data fileSizeBytes mesh f).1.surfaceAreaCm2 * 100 =
        mesh.area ∧
      (calculate_model_data fileSizeBytes mesh f).1.volumeCm3 * 1000 =
        mesh.volume) := by
  refine ⟨⟨rfl, rfl, rfl⟩, ?_, ?_, ?_, ?_, ?_⟩ <;>
    simp [calculate_model_data]

/-- C4 counterexample: at infill 2 (outside [0,1]) the metrics calculator
does not fail — it returns a full 21-row mass table computed from the
out-of-range value (PLA row: massAtFull 1.25 g, massAtInfill 2.5 g). -/
theorem C4_counterexample_no_range_error :
    ((calculate_model_data 0 wMesh 2).2).length = 21 ∧
    mass_value (calculate_model_data 0 wMesh 2).2 "PLA" = some 1.25 ∧
    (((calculate_model_data 0 wMesh 2).2.find?
        (fun r => r.material = "PLA")).map MassRow.massInfill) =
      some 2.5 := by
  refine ⟨by decide, ?_, ?_⟩ <;>
    · simp [mass_value, calculate_model_data, massRowsFrom, MATERIALS, wMesh,
        List.find?]
      norm_num

/-- C4 (amended): the metrics calculator performs no validation of the
infill fraction: for every f outside [0,1] it raises no error and returns
the mass table computed with f applied unchanged as a flat multiplier. -/
theorem C4_amended_no_infill_validation (fileSizeBytes : ℚ) (mesh : Mesh)
    (f : ℚ) (hf : f < 0 ∨ 1 < f) :
    ((calculate_model_data fileSizeBytes mesh f).2).length = 21 ∧
    ∀ r ∈ (calculate_model_data fileSizeBytes mesh f).2,
      r.massInfill = r.mass100 * f ∧
        r.mass100 = mesh.volume / 1000 * r.density := by
  have hlen : ((calculate_model_data fileSizeBytes mesh f).2).length = 21 := by
    show (massRowsFrom MATERIALS (mesh.volume / 1000) f 1).length = 21
    rw [massRowsFrom_length]
    decide
  refine ⟨hlen, ?_⟩
  intro r hr
  have h := massRowsFrom_mem MATERIALS (mesh.volume / 1000) f 1 r hr
  exact ⟨h.2, h.1⟩

/-- Witness for C4 (amended) at infill 2, mesh `wMesh`, on the first table
row (PLA). -/
theorem C4_amended_no_infill_validation_witness :
    ((1 : ℚ) < 2) ∧
    ((calculate_model_data 0 wMesh 2).2).length = 21 ∧
    ((⟨1, "PLA", 1.250, wMesh.volume / 1000 * 1.250 * 2,
        wMesh.volume / 1000 * 1.250⟩ : MassRow) ∈
      (calculate_model_data 0 wMesh 2).2) ∧
    ((⟨1, "PLA", 1.250, wMesh.volume / 1000 * 1.250 * 2,
        wMesh.volume / 1000 * 1.250⟩ : MassRow).massInfill =
      (⟨1, "PLA", 1.250, wMesh.volume / 1000 * 1.250 * 2,
        wMesh.volume / 1000 * 1.250⟩ : MassRow).mass100 * 2) := by
  have hmem : (⟨1, "PLA", 1.250, wMesh.volume / 1000 * 1.250 * 2,
      wMesh.volume / 1000 * 1.250⟩ : MassRow) ∈
      (calculate_model_data 0 wMesh 2).2 := by
    simp [calculate_model_data, massRowsFrom, MATERIALS]
  have h := C4_amended_no_infill_validation 0 wMesh 2 (Or.inr one_lt_two)
  exact ⟨one_lt_two, h.1, hmem, (h.2 _ hmem).1⟩

/-! ### Helper lemmas about NumPy indexing and distances -/

lemma npGet_out_of_range (xs : List Vec3) (i : ℤ)
    (h : (xs.length : ℤ) ≤ i ∨ i < -(xs.length : ℤ)) : npGet xs i = none := by
  have h1 : ¬(0 ≤ i ∧ i < (xs.length : ℤ)) := by omega
  have h2 : ¬(-(xs.length : ℤ) ≤ i ∧ i < 0) := by omega
  simp [npGet, h1, h2]

lemma npGet_neg_wrap (xs : List Vec3) (i : ℤ)
    (h1 : -(xs.length : ℤ) ≤ i) (h2 : i < 0) :
    npGet xs i = npGet xs (i + xs.length) := by
  have hA : ¬(0 ≤ i ∧ i < (xs.length : ℤ)) := by omega
  have hB : 0 ≤ i + (xs.length : ℤ) ∧
      i + (xs.length : ℤ) < (xs.length : ℤ) := by omega
  simp [npGet, hA, h1, h2, hB]

lemma npGet_valid (xs : List Vec3) (i : ℤ) (h0 : 0 ≤ i)
    (h : i < (xs.length : ℤ)) : ∃ p, npGet xs i = some p := by
  have hc : 0 ≤ i ∧ i < (xs.length : ℤ) := ⟨h0, h⟩
  have hlt : i.toNat < xs.length := by omega
  refine ⟨xs.get ⟨i.toNat, hlt⟩, ?_⟩
  simp [npGet, hc, List.get?_eq_get hlt]

lemma distSqMm_comm (p q : Vec3) : distSqMm p q = distSqMm q p := by
  unfold distSqMm; ring

lemma distanceCm_comm (p q : Vec3) : distanceCm p q = distanceCm q p := by
  unfold distanceCm; rw [distSqMm_comm]

lemma distSqMm_self (p : Vec3) : distSqMm p p = 0 := by
  unfold distSqMm; ring

/-! ### Claims C5-C7: manual measurement -/

/-- C5 counterexample: the index −1 is outside [0, vertexCount−1], yet the
measurement indexing raises no error and silently returns the line from the
last vertex — NumPy wraps negative indices. -/
theorem C5_counterexample_negative_index :
    ((-1 : ℤ) < 0 ∨ (wMesh.vertices.length : ℤ) ≤ -1) ∧
    measureLine wMesh (-1) 0 = some (⟨10, 0, 0⟩, ⟨0, 0, 0⟩) := by
  exact ⟨Or.inl (by decide), by decide⟩

/-- C5 (amended): an index ≥ vertexCount or < −vertexCount fails with an
IndexError (no measurement line); a negative index in [−vertexCount, −1] is
accepted and silently resolves to vertexCount + index, so index =
vertexCount does fail as the claim's example says. -/
theorem C5_amended_numpy_index_semantics (mesh : Mesh) (i j : ℤ) :
    (((mesh.vertices.length : ℤ) ≤ i ∨ i < -(mesh.vertices.length : ℤ)) →
      measureLine mesh i j = none) ∧
    (((mesh.vertices.length : ℤ) ≤ j ∨ j < -(mesh.vertices.length : ℤ)) →
      measureLine mesh i j = none) ∧
    (-(mesh.vertices.length : ℤ) ≤ i → i < 0 →
      npGet mesh.vertices i =
        npGet mesh.vertices (i + mesh.vertices.length)) := by
  refine ⟨?_, ?_, fun h1 h2 => npGet_neg_wrap mesh.vertices i h1 h2⟩
  · intro h
    cases hq : npGet mesh.vertices j <;>
      simp [measureLine, npGet_out_of_range mesh.vertices i h, hq]
  · intro h
    cases hp : npGet mesh.vertices i <;>
      simp [measureLine, npGet_out_of_range mesh.vertices j h, hp]

/-- Witness for C5 (amended) on `wMesh` (2 vertices): index 2 fails, index
−1 wraps to 1. -/
theorem C5_amended_numpy_index_semantics_witness :
    ((wMesh.vertices.length : ℤ) ≤ 2 ∨ (2 : ℤ) <
      -(wMesh.vertices.length : ℤ)) ∧
    measureLine wMesh 2 0 = none ∧
    (-(wMesh.vertices.length : ℤ) ≤ -1 ∧ (-1 : ℤ) < 0) ∧
    npGet wMesh.vertices (-1) =
      npGet wMesh.vertices (-1 + wMesh.vertices.length) := by
  exact ⟨Or.inl (by decide),
    (C5_amended_numpy_index_semantics wMesh 2 0).1 (Or.inl (by decide)),
    ⟨by decide, by decide⟩,
    (C5_amended_numpy_index_semantics wMesh (-1) 0).2.2 (by decide)
      (by decide)⟩

/-- C6: for valid vertex indices the computed measurement distance is
symmetric: distance(i, j) = distance(j, i). -/
theorem C6_measure_distance_symmetric (mesh : Mesh) (i j : ℤ)
    (hi0 : 0 ≤ i) (hi : i < (mesh.vertices.length : ℤ))
    (hj0 : 0 ≤ j) (hj : j < (mesh.vertices.length : ℤ)) :
    measureDistance mesh i j = measureDistance mesh j i := by
  cases hp : npGet mesh.vertices i <;> cases hq : npGet mesh.vertices j <;>
    simp [measureDistance, measureLine, hp, hq, distanceCm_comm]

/-- Witness for C6 on `wMesh` at indices 0 and 1. -/
theorem C6_measure_distance_symmetric_witness :
    ((0 : ℤ) ≤ 0 ∧ (0 : ℤ) < (wMesh.vertices.length : ℤ) ∧
      (0 : ℤ) ≤ 1 ∧ (1 : ℤ) < (wMesh.vertices.length : ℤ)) ∧
    measureDistance wMesh 0 1 = measureDistance wMesh 1 0 := by
  exact ⟨⟨by decide, by decide, by decide, by decide⟩,
    C6_measure_distance_symmetric wMesh 0 1 (by decide) (by decide)
      (by decide) (by decide)⟩

/-- C7: measuring from a valid vertex index to itself is permitted (the
indexing succeeds and yields a line) and its distance is 0. -/
theorem C7_self_measure_zero (mesh : Mesh) (i : ℤ)
    (hi0 : 0 ≤ i) (hi : i < (mesh.vertices.length : ℤ)) :
    (∃ p, measureLine mesh i i = some (p, p)) ∧
      measureDistance mesh i i = some 0 := by
  obtain ⟨p, hp⟩ := npGet_valid mesh.vertices i hi0 hi
  refine ⟨⟨p, by simp [measureLine, hp]⟩, ?_⟩
  simp [measureDistance, measureLine, hp, distanceCm, distSqMm_self]

/-- Witness for C7 on `wMesh` at index 0. -/
theorem C7_self_measure_zero_witness :
    ((0 : ℤ) ≤ 0 ∧ (0 : ℤ) < (wMesh.vertices.length : ℤ)) ∧
    ((∃ p, measureLine wMesh 0 0 = some (p, p)) ∧
      measureDistance wMesh 0 0 = some 0) := by
  exact ⟨⟨by decide, by decide⟩,
    C7_self_measure_zero wMesh 0 (by decide) (by decide)⟩

/-! ### Claims C8-C10: the scene composer -/

/-- C8 counterexample: composing a scene from the empty mesh raises no
error — the composer returns a scene with empty traces instead of failing
(no InvalidSceneError exists in the code). -/
theorem C8_counterexample_empty_mesh_scene :
    plot_stl_with_arrows emptyMesh "PLA" 0 "z" [] =
      ⟨[], [], [], [], [], [], [], [], ("PLA", 0)⟩ := by
  rfl

/-- C8 (amended): the scene composer performs no mesh validation and has no
error path: for every mesh, empty or degenerate included, it returns a
scene whose traces are built directly from the mesh fields, with one
measurement trace per requested line and the given annotation text. -/
theorem C8_amended_composer_total (mesh : Mesh) (name : String) (mv : ℚ)
    (cb : String) (lines : List (Vec3 × Vec3)) :
    (plot_stl_with_arrows mesh name mv cb lines).xs =
      mesh.vertices.map Vec3.x ∧
    (plot_stl_with_arrows mesh name mv cb lines).ys =
      mesh.vertices.map Vec3.y ∧
    (plot_stl_with_arrows mesh name mv cb lines).zs =
      mesh.vertices.map Vec3.z ∧
    (plot_stl_with_arrows mesh name mv cb lines).segs.length =
      lines.length ∧
    (plot_stl_with_arrows mesh name mv cb lines).annot = (name, mv) := by
  refine ⟨rfl, rfl, rfl, ?_, rfl⟩
  simp [plot_stl_with_arrows]

/-- C9: the mass shown in the scene's textual annotation is the selected
material's "Mass @100% (g)" column — volume × density, independent of the
chosen infill fraction f. -/
theorem C9_annotation_mass_at_full (fileSizeBytes : ℚ) (mesh : Mesh)
    (f : ℚ) (sel : String) (d : ℚ) (cb : String)
    (lines : List (Vec3 × Vec3)) (hmem : (sel, d) ∈ MATERIALS) :
    mass_value (calculate_model_data fileSizeBytes mesh f).2 sel =
      some (mesh.volume / 1000 * d) ∧
    ∀ v, mass_value (calculate_model_data fileSizeBytes mesh f).2 sel =
        some v →
      (plot_stl_with_arrows mesh sel v cb lines).annot = (sel, v) := by
  have h1 : mass_value (calculate_model_data fileSizeBytes mesh f).2 sel =
      some (mesh.volume / 1000 * d) := by
    unfold mass_value
    rw [show (calculate_model_data fileSizeBytes mesh f).2 =
        massRowsFrom MATERIALS (mesh.volume / 1000) f 1 from rfl,
      massRowsFrom_find MATERIALS (mesh.volume / 1000) f 1 sel,
      find_key_of_mem MATERIALS sel d MATERIALS_keys_nodup hmem]
    rfl
  exact ⟨h1, fun v _ => rfl⟩

/-- Witness for C9: PLA on `wMesh` at infill 1/2 — the annotation mass is
still volume × density (the 100% value). -/
theorem C9_annotation_mass_at_full_witness :
    (("PLA", (1.250 : ℚ)) ∈ MATERIALS) ∧
    mass_value (calculate_model_data 0 wMesh (1 / 2)).2 "PLA" =
      some (wMesh.volume / 1000 * 1.250) ∧
    (plot_stl_with_arrows wMesh "PLA" (wMesh.volume / 1000 * 1.250) "z"
        []).annot = ("PLA", wMesh.volume / 1000 * 1.250) := by
  have hmem : ("PLA", (1.250 : ℚ)) ∈ MATERIALS := by simp [MATERIALS]
  have h := C9_annotation_mass_at_full 0 wMesh (1 / 2) "PLA" 1.250 "z" []
    hmem
  exact ⟨hmem, h.1, h.2 _ h.1⟩

/-- C10: for every coloring-mode string other than "z" and "curvature"
(including strings outside the declared three-mode set) the composer raises
no error and colors each vertex by its Euclidean distance to the mesh
centroid. -/
theorem C10_unknown_mode_centroid_distance (mesh : Mesh) (name : String)
    (mv : ℚ) (cb : String) (lines : List (Vec3 × Vec3))
    (h1 : cb ≠ "z") (h2 : cb ≠ "curvature") :
    (plot_stl_with_arrows mesh name mv cb lines).colors =
      mesh.vertices.map (fun p => euclidDist p mesh.centroid) := by
  simp [plot_stl_with_arrows, h1, h2, euclidDist]

/-- Witness for C10 with the UI's third mode string "distance" on
`wMesh`. -/
theorem C10_unknown_mode_centroid_distance_witness :
    ("distance" ≠ "z") ∧ ("distance" ≠ "curvature") ∧
    (plot_stl_with_arrows wMesh "PLA" 0 "distance" []).colors =
      wMesh.vertices.map (fun p => euclidDist p wMesh.centroid) := by
  exact ⟨by decide, by decide,
    C10_unknown_mode_centroid_distance wMesh "PLA" 0 "distance" []
      (by decide) (by decide)⟩

end MassTool
